import Mathlib

/-!
Shallow embedding of the episode lifecycle core of the podcast-summary
repository, together with proofs about it.

The embedding covers:
* the append-only processing-event store, the episode registry and the
  email delivery ledger from src/database.py (SQLite tables become Lean
  lists; ORDER BY created_at DESC, id DESC becomes an insertion sort on
  the lexicographic key; AUTOINCREMENT row ids become an explicit counter);
* the orchestrator main.py (process_episode, process_podcast, main) with
  the external collaborators (downloader, contextualizer, transcriber,
  summarizer, emailer) abstracted as oracle functions;
* the per-stage manual pipeline runner of run_pipeline.py (the process
  command), including its skip-already-processed filter and its per-stage
  resume checks.

Timestamps are natural numbers supplied by the caller (SQLite would use
CURRENT_TIMESTAMP); JSON payload serialization json.dumps followed by
json.loads is the identity on the payload dictionaries used by the code,
so payloads are stored structurally.  Filesystem and database errors are
not modelled: every store operation is total, as in the source every
failure of the SQLite layer is outside the specified behavior.
-/

/-- JSON-like value stored inside an event payload.  The code stores
either strings (paths, error messages, stage names) or lists of strings
(email recipients). -/
inductive JVal where
  | s (v : String)
  | arr (vs : List String)
deriving DecidableEq, Repr

/-- An event payload, the JSON dictionary passed to add_processing_event. -/
abbrev Payload := List (String × JVal)

/-- Row of the processing_events table (database.py, initialize_schema). -/
structure EventRow where
  id : Nat
  episode_id : Nat
  status : String
  event_data : Option Payload
  additional_details : Option String
  created_at : Nat
deriving DecidableEq, Repr

/-- Row of the episodes table (database.py, initialize_schema).  Fields the
claims never touch (description, link, image_url, raw_rss) are omitted;
published_date is represented by its parsed age in days, as used by the
age-limit check of main.py (none = missing or unparseable). -/
structure EpisodeRow where
  id : Nat
  podcast_id : Nat
  episode_guid : String
  title : String
  audio_url : String
  published_age_days : Option Nat
  file_size_mb : Option Nat
  context : Option String
  generated_summary : Option String
deriving DecidableEq, Repr

/-- Episode data coming from the RSS parser (the dictionary consumed by
insert_episode and process_episode). -/
structure EpisodeData where
  guid : String
  title : String
  audio_url : String
  age_days : Option Nat
deriving DecidableEq, Repr

/-- The persistent store: episodes table, processing_events table and the
email_log delivery ledger.  nextEpisodeId and nextEventId model the SQLite
AUTOINCREMENT counters. -/
structure DB where
  episodes : List EpisodeRow
  nextEpisodeId : Nat
  events : List EventRow
  nextEventId : Nat
  email_log : List (Nat × String)
deriving DecidableEq, Repr

/-- The empty database right after initialize_schema. -/
def emptyDB : DB :=
  { episodes := [], nextEpisodeId := 1, events := [], nextEventId := 1, email_log := [] }

/-- Python truthiness of the event_data argument: json.dumps(event_data) is
stored only when the dict is non-empty (add_processing_event does
`json.dumps(event_data) if event_data else None`). -/
def storedEventData : Option Payload → Option Payload
  | none => none
  | some p => if p.isEmpty then none else some p

/-- Database.add_processing_event: append one row to processing_events. -/
def add_processing_event (db : DB) (episode_id : Nat) (status : String)
    (event_data : Option Payload) (additional_details : Option String)
    (now : Nat) : DB :=
  let row : EventRow :=
    { id := db.nextEventId, episode_id := episode_id, status := status,
      event_data := storedEventData event_data,
      additional_details := additional_details, created_at := now }
  { db with events := db.events ++ [row], nextEventId := db.nextEventId + 1 }

/-- Strict comparison on the SQL sort key (created_at, id): keyLt a b means
row b sorts strictly before row a under ORDER BY created_at DESC, id DESC. -/
def keyLt (a b : EventRow) : Bool :=
  decide (a.created_at < b.created_at ∨ (a.created_at = b.created_at ∧ a.id < b.id))

/-- Insert a row into a list that is sorted by (created_at, id) descending. -/
def insertDesc (e : EventRow) : List EventRow → List EventRow
  | [] => [e]
  | x :: xs => if keyLt x e then e :: x :: xs else x :: insertDesc e xs

/-- Sort rows by (created_at, id) descending: the ORDER BY used by all
processing_events queries of database.py. -/
def sortDesc (l : List EventRow) : List EventRow :=
  l.foldr insertDesc []

/-- All events of one episode, in insertion order (the WHERE clause). -/
def eventsFor (db : DB) (episode_id : Nat) : List EventRow :=
  db.events.filter (fun e => e.episode_id == episode_id)

/-- Database.get_processing_events: events of an episode, optionally
filtered by status (the status filter is applied only when the passed
string is truthy), ordered by created_at DESC, id DESC. -/
def get_processing_events (db : DB) (episode_id : Nat)
    (status : Option String) : List EventRow :=
  match status with
  | some st =>
      if st.isEmpty then sortDesc (eventsFor db episode_id)
      else sortDesc ((eventsFor db episode_id).filter (fun e => e.status == st))
  | none => sortDesc (eventsFor db episode_id)

/-- Database.get_latest_processing_event: ORDER BY created_at DESC, id DESC
LIMIT 1. -/
def get_latest_processing_event (db : DB) (episode_id : Nat) : Option EventRow :=
  (sortDesc (eventsFor db episode_id)).head?

/-- Database.get_current_status: status of the latest event, none when the
episode has no events. -/
def get_current_status (db : DB) (episode_id : Nat) : Option String :=
  (get_latest_processing_event db episode_id).map (fun e => e.status)

/-- Database.get_event_data: event_data of the newest event with the given
status, none when no such event exists (and none when that event stored no
payload, since Python returns the NULL column as None either way). -/
def get_event_data (db : DB) (episode_id : Nat) (status : String) : Option Payload :=
  match get_processing_events db episode_id (some status) with
  | [] => none
  | e :: _ => e.event_data

/-- Database.email_already_sent: does a delivery record exist for this
(episode, recipient) pair. -/
def email_already_sent (db : DB) (episode_id : Nat) (recipient : String) : Bool :=
  db.email_log.any (fun r => r.1 == episode_id && r.2 == recipient)

/-- Database.log_email_sent: record a successful delivery. -/
def log_email_sent (db : DB) (episode_id : Nat) (recipient : String) : DB :=
  { db with email_log := db.email_log ++ [(episode_id, recipient)] }

/-- Database.insert_episode: append a row and return its id. -/
def insert_episode (db : DB) (podcast_id : Nat) (ed : EpisodeData) : DB × Nat :=
  let row : EpisodeRow :=
    { id := db.nextEpisodeId, podcast_id := podcast_id, episode_guid := ed.guid,
      title := ed.title, audio_url := ed.audio_url,
      published_age_days := ed.age_days, file_size_mb := none,
      context := none, generated_summary := none }
  ({ db with episodes := db.episodes ++ [row], nextEpisodeId := db.nextEpisodeId + 1 },
   db.nextEpisodeId)

/-- Database.get_episode_by_guid. -/
def get_episode_by_guid (db : DB) (guid : String) : Option EpisodeRow :=
  db.episodes.find? (fun e => e.episode_guid == guid)

/-- Database.get_episode_by_id. -/
def get_episode_by_id (db : DB) (episode_id : Nat) : Option EpisodeRow :=
  db.episodes.find? (fun e => e.id == episode_id)

/-- Database.update_episode_file_size. -/
def update_episode_file_size (db : DB) (episode_id : Nat) (s : Nat) : DB :=
  { db with episodes :=
      db.episodes.map (fun e =>
        if e.id == episode_id then { e with file_size_mb := some s } else e) }

/-- Database.update_episode_context. -/
def update_episode_context (db : DB) (episode_id : Nat) (c : String) : DB :=
  { db with episodes :=
      db.episodes.map (fun e =>
        if e.id == episode_id then { e with context := some c } else e) }

/-- Database.update_episode_summary. -/
def update_episode_summary (db : DB) (episode_id : Nat) (s : String) : DB :=
  { db with episodes :=
      db.episodes.map (fun e =>
        if e.id == episode_id then { e with generated_summary := some s } else e) }

/-- Look up a string value in a payload (the event_data.get of the code). -/
def payloadLookupStr (p : Payload) (k : String) : Option String :=
  match p.lookup k with
  | some (JVal.s v) => some v
  | _ => none

/-- One entry of the result of Database.get_failed_episodes (podcast slug
and episode title are presentation fields and are replaced by the episode
id). -/
structure FailedEpisode where
  episode_id : Nat
  audio_path : Option String
  error_message : Option String
deriving DecidableEq, Repr

/-- Database.get_failed_episodes: failed events that are the latest event
of their episode, restricted to the last given number of hours when one is
supplied.  created_at is measured in hours here. -/
def get_failed_episodes (db : DB) (hours : Option Nat) (now : Nat) : List FailedEpisode :=
  let rows := db.events.filter (fun e =>
    e.status == "failed"
    && (match hours with
        | none => true
        | some h => decide (now - h ≤ e.created_at))
    && decide (get_latest_processing_event db e.episode_id = some e))
  (sortDesc rows).map (fun e =>
    match e.event_data with
    | some p =>
        { episode_id := e.episode_id,
          audio_path := payloadLookupStr p "audio_path",
          error_message := payloadLookupStr p "error_message" }
    | none => { episode_id := e.episode_id, audio_path := none, error_message := none })

/-- External collaborators of the orchestrator, abstracted at the boundary
described by the code.  Fallible collaborators return Except: an error
value models a raised exception, ok none (or an empty string) models the
null result the code checks with `if not result`.  send_summary_email is
total because emailer.py catches its own exceptions and returns a
(success, html_body) pair. -/
structure Collaborators where
  sanitize_filename : String → String → String
  download_audio : String → String → Except String (Option String × Option Nat)
  contextualize_episode : EpisodeData → Except String (Option String)
  move_to_processing : String → String
  transcribe_audio : String → Except String (Option String)
  summarize_transcript : String → Option String → Except String (Option String)
  read_summary : String → String
  send_summary_email : String → String → Bool × String

/-- One external side-effecting call made by the orchestrator, recorded so
theorems can state which collaborators were invoked. -/
inductive Call where
  | download (url : String)
  | contextualize (guid : String)
  | moveToProcessing (path : String)
  | transcribe (path : String)
  | summarize (path : String)
  | sendEmail (recipient : String)
  | moveToArchive (path : String)
  | deleteAudio (path : String)
  | errorSummary (failed : List FailedEpisode)
deriving DecidableEq, Repr

/-- Python truthiness for an optional string (None and the empty string are
falsy). -/
def optStrTruthy : Option String → Bool
  | none => false
  | some s => !s.isEmpty

/-- The failed_stage_map dictionary, identical in main.py process_episode
and in the run_pipeline.py process command: it keys the non-None statuses
of the table below, with None mapped to download and anything else to
unknown via dict.get. -/
def failed_stage_table : List (String × String) :=
  [("downloaded", "contextualize"), ("contextualized", "transcribe"),
   ("transcribed", "summarize"), ("summarized", "email")]

/-- failed_stage_map.get(current_status, the unknown default). -/
def failed_stage_map (current_status : Option String) : String :=
  match current_status with
  | none => "download"
  | some st => (failed_stage_table.lookup st).getD "unknown"

/-- The shared exception handler of main.py process_episode (lines 397 to
415) and of the run_pipeline.py process command (lines 1206 to 1227):
append a failed event carrying the error message and the stage inferred
from the status the episode had when the exception surfaced. -/
def mark_failed (db : DB) (episode_id : Nat) (msg : String) (now : Nat) : DB :=
  let failed_stage := failed_stage_map (get_current_status db episode_id)
  add_processing_event db episode_id "failed"
    (some [("error_message", JVal.s msg), ("failed_stage", JVal.s failed_stage)]) none now

/-- Result of the per-recipient email loop. -/
structure EmailLoopOut where
  db : DB
  calls : List Call
  all_sent : Bool
  html : Option String
deriving Repr

/-- The per-recipient delivery loop shared by main.py (lines 350 to 375)
and run_pipeline.py (lines 1160 to 1185): skip recipients that already
have a delivery record, otherwise send, and write the delivery record only
on a per-recipient success.  The html accumulator mirrors the html_content
variable that is overwritten by every send call. -/
def send_emails_loop (C : Collaborators) (eid : Nat) (summary : String) :
    DB → List String → Bool → Option String → EmailLoopOut
  | db, [], allOk, html => { db := db, calls := [], all_sent := allOk, html := html }
  | db, r :: rs, allOk, html =>
    if email_already_sent db eid r then
      send_emails_loop C eid summary db rs allOk html
    else
      let res := C.send_summary_email r summary
      let db2 := if res.1 then log_email_sent db eid r else db
      let out := send_emails_loop C eid summary db2 rs (allOk && res.1) (some res.2)
      { out with calls := Call.sendEmail r :: out.calls }

/-- Per-podcast configuration consumed by process_episode: the configured
destination emails and the age threshold. -/
structure RunCfg where
  emails : List String
  max_episode_age_days : Nat
deriving Repr

/-- The try block of main.py process_episode (lines 256 to 395): download,
contextualize, transcribe, summarize, email fan-out, emailed and completed
events, archive.  Every failure path (a raised collaborator error or a
falsy result) runs the shared failure handler on the store as it stands at
that moment and stops. -/
def run_stages (C : Collaborators) (db : DB) (episode_id : Nat)
    (cfg : RunCfg) (ed : EpisodeData) (now : Nat) : DB × List Call :=
  let filename := C.sanitize_filename ed.title ed.guid
  match C.download_audio ed.audio_url filename with
  | .error m => (mark_failed db episode_id m now, [Call.download ed.audio_url])
  | .ok (audio_path?, file_size?) =>
    if optStrTruthy audio_path? = false then
      (mark_failed db episode_id "Failed to download audio" now, [Call.download ed.audio_url])
    else
      let audio_path := audio_path?.getD ""
      let db := match file_size? with
        | some s => if s ≠ 0 then update_episode_file_size db episode_id s else db
        | none => db
      let db := add_processing_event db episode_id "downloaded"
        (some [("audio_path", JVal.s audio_path)]) none now
      let calls := [Call.download ed.audio_url]
      match C.contextualize_episode ed with
      | .error m => (mark_failed db episode_id m now, calls ++ [Call.contextualize ed.guid])
      | .ok ctx? =>
        if optStrTruthy ctx? = false then
          (mark_failed db episode_id "Failed to generate context" now,
           calls ++ [Call.contextualize ed.guid])
        else
          let db := update_episode_context db episode_id (ctx?.getD "")
          let db := add_processing_event db episode_id "contextualized" none none now
          let calls := calls ++ [Call.contextualize ed.guid]
          let audio_path := C.move_to_processing audio_path
          let calls := calls ++ [Call.moveToProcessing audio_path]
          match C.transcribe_audio audio_path with
          | .error m => (mark_failed db episode_id m now, calls ++ [Call.transcribe audio_path])
          | .ok transcript? =>
            if optStrTruthy transcript? = false then
              (mark_failed db episode_id "Failed to transcribe audio" now,
               calls ++ [Call.transcribe audio_path])
            else
              let transcript_path := transcript?.getD ""
              let db := add_processing_event db episode_id "transcribed"
                (some [("transcript_path", JVal.s transcript_path)]) none now
              let calls := calls ++ [Call.transcribe audio_path]
              let context := (get_episode_by_id db episode_id).bind (fun e => e.context)
              match C.summarize_transcript transcript_path context with
              | .error m =>
                  (mark_failed db episode_id m now, calls ++ [Call.summarize transcript_path])
              | .ok summary_path? =>
                if optStrTruthy summary_path? = false then
                  (mark_failed db episode_id "Failed to generate summary" now,
                   calls ++ [Call.summarize transcript_path])
                else
                  let summary_path := summary_path?.getD ""
                  let summary_text := C.read_summary summary_path
                  let db := update_episode_summary db episode_id summary_text
                  let db := add_processing_event db episode_id "summarized"
                    (some [("summary_path", JVal.s summary_path)]) none now
                  let calls := calls ++ [Call.summarize transcript_path]
                  let out := send_emails_loop C episode_id summary_text db cfg.emails true none
                  let db := out.db
                  let calls := calls ++ out.calls
                  if out.all_sent then
                    let db := add_processing_event db episode_id "emailed"
                      (some [("recipients", JVal.arr cfg.emails)]) out.html now
                    let db := add_processing_event db episode_id "completed" none none now
                    (db, calls ++ [Call.moveToArchive audio_path])
                  else
                    (mark_failed db episode_id "Failed to send one or more emails" now, calls)

/-- The eligibility filters of main.py process_episode (lines 230 to 253):
no configured destination emails means skip outright, and a parsed
published age above the threshold means skip; a missing or unparseable
published date lets the episode proceed. -/
def process_episode_eligible (C : Collaborators) (db : DB) (episode_id : Nat)
    (cfg : RunCfg) (ed : EpisodeData) (now : Nat) : DB × List Call :=
  if cfg.emails.isEmpty then (db, [])
  else
    match ed.age_days with
    | some age =>
        if cfg.max_episode_age_days < age then (db, [])
        else run_stages C db episode_id cfg ed now
    | none => run_stages C db episode_id cfg ed now

/-- main.py process_episode (lines 190 to 415): resolve identity by guid,
short-circuit when the episode already has any processing event, insert a
new row for an unseen guid, then run the eligibility filters and the stage
pipeline.  The function is total: every stage exception is converted into
a failed event by the handler inside run_stages. -/
def process_episode (C : Collaborators) (db : DB) (podcast_id : Nat)
    (cfg : RunCfg) (ed : EpisodeData) (now : Nat) : DB × List Call :=
  match get_episode_by_guid db ed.guid with
  | some ep =>
    match get_current_status db ep.id with
    | some _ => (db, [])
    | none => process_episode_eligible C db ep.id cfg ed now
  | none =>
    let ins := insert_episode db podcast_id ed
    process_episode_eligible C ins.1 ins.2 cfg ed now

/-- One active podcast as seen by main: its registry id, the outcome of
fetching its feed (an error models a raised transport or parse exception)
and its configuration.  The last_checked and metadata bookkeeping writes
of process_podcast touch only the podcasts table and are not modelled. -/
structure PodcastEntry where
  id : Nat
  feed : Except String (List EpisodeData)
  cfg : RunCfg

/-- main.py process_podcast (lines 122 to 187): fetch the feed, then run
process_episode on each episode in order.  A feed failure propagates as an
error; episode-level failures never do, because process_episode is total. -/
def process_podcast (C : Collaborators) (db : DB) (p : PodcastEntry) (now : Nat) :
    Except String (DB × List Call) :=
  match p.feed with
  | .error m => .error m
  | .ok episodes =>
    .ok (episodes.foldl
      (fun acc ed =>
        let r := process_episode C acc.1 p.id p.cfg ed now
        (r.1, acc.2 ++ r.2))
      (db, []))

/-- main.py cleanup_failed_episodes (lines 418 to 445): delete the audio
file of every failed episode that recorded one (hours=None, so no time
window). -/
def cleanup_failed_episodes (db : DB) : List Call :=
  (get_failed_episodes db none 0).filterMap
    (fun f => f.audio_path.map (fun p => Call.deleteAudio p))

/-- main.py send_error_summary (lines 448 to 463): report the failed
episodes of the last 24 hours to the admin, skipping the email when there
are none. -/
def send_error_summary (db : DB) (now : Nat) : List Call :=
  let failed := get_failed_episodes db (some 24) now
  if failed.isEmpty then [] else [Call.errorSummary failed]

/-- Loop state of the podcast loop in main. -/
structure MainLoopSt where
  db : DB
  calls : List Call
  has_failures : Bool

/-- Outcome of one orchestrator run. -/
structure MainOut where
  db : DB
  calls : List Call
  exit_code : Nat

/-- One iteration of the podcast loop of main (lines 77 to 98): a raised
process_podcast error sets has_failures and moves on; a normal return
threads the store and the recorded calls. -/
def main_loop_step (C : Collaborators) (now : Nat) (st : MainLoopSt)
    (p : PodcastEntry) : MainLoopSt :=
  match process_podcast C st.db p now with
  | .error _ => { st with has_failures := true }
  | .ok r => { st with db := r.1, calls := st.calls ++ r.2 }

/-- main.py main (lines 29 to 119), from the podcast loop on: process each
active podcast, setting has_failures only when process_podcast raises;
then clean up failed episodes, send the error summary email, and return
exit code 1 exactly when has_failures was set. -/
def main_run (C : Collaborators) (db : DB) (podcasts : List PodcastEntry)
    (now : Nat) : MainOut :=
  let st := podcasts.foldl (main_loop_step C now)
    ({ db := db, calls := [], has_failures := false } : MainLoopSt)
  { db := st.db,
    calls := st.calls ++ cleanup_failed_episodes st.db ++ send_error_summary st.db now,
    exit_code := if st.has_failures then 1 else 0 }

/-- Environment of the run_pipeline.py process command: the collaborators
plus the two filesystem predicates its resume checks consult
(Path.exists, and the parent-directory test deciding whether the audio
still sits in the downloaded folder). -/
structure PipelineEnv where
  C : Collaborators
  file_exists : String → Bool
  in_downloaded_dir : String → Bool

/-- The statuses the run_pipeline.py process command treats as already
processed when filtering candidate episodes (line 972). -/
def rp_skip_statuses : List String :=
  ["downloaded", "contextualized", "transcribed", "summarized", "emailed", "completed"]

/-- The full stage list of the process command. -/
def rp_all_stages : List String :=
  ["download", "contextualize", "transcribe", "summarize", "email"]

/-- The completion condition of run_pipeline.py line 1196: the stage list,
taken as a set, equals the full stage set. -/
def stage_set_complete (stage_list : List String) : Bool :=
  rp_all_stages.all (fun s => stage_list.contains s)
    && stage_list.all (fun s => rp_all_stages.contains s)

/-- The candidate filter of run_pipeline.py process (lines 963 to 979):
keep an episode when it is new (inserting its row) or when its current
status is outside rp_skip_statuses; episodes whose status is in the list
are dropped before any stage runs. -/
def rp_select_episodes (db : DB) (podcast_id : Nat) :
    List EpisodeData → DB × List (Nat × EpisodeData)
  | [] => (db, [])
  | ed :: rest =>
    match get_episode_by_guid db ed.guid with
    | some ep =>
      let keep :=
        match get_current_status db ep.id with
        | some st => !(rp_skip_statuses.contains st)
        | none => true
      let tail := rp_select_episodes db podcast_id rest
      if keep then (tail.1, (ep.id, ed) :: tail.2) else (tail.1, tail.2)
    | none =>
      let ins := insert_episode db podcast_id ed
      let tail := rp_select_episodes ins.1 podcast_id rest
      (tail.1, (ins.2, ed) :: tail.2)

/-- Failure value threaded through the run_pipeline stages: the store and
calls accumulated up to the raise, plus the exception message. -/
abbrev RPErr := DB × List Call × String

/-- Stage 1 of the process command (lines 1013 to 1036): skip when the
recorded audio path exists on disk, otherwise download, update the file
size when measured, and append a downloaded event. -/
def rp_download (env : PipelineEnv) (db : DB) (episode : EpisodeRow)
    (stage_list : List String) (audio_path : Option String) (now : Nat) :
    Except RPErr (DB × List Call × Option String) :=
  if stage_list.contains "download" then
    if optStrTruthy audio_path && env.file_exists (audio_path.getD "") then
      .ok (db, [], audio_path)
    else
      let filename := env.C.sanitize_filename episode.title episode.episode_guid
      match env.C.download_audio episode.audio_url filename with
      | .error m => .error (db, [Call.download episode.audio_url], m)
      | .ok (audio_path?, file_size?) =>
        if optStrTruthy audio_path? = false then
          .error (db, [Call.download episode.audio_url], "Failed to download audio")
        else
          let db := match file_size? with
            | some s => if s ≠ 0 then update_episode_file_size db episode.id s else db
            | none => db
          let db := add_processing_event db episode.id "downloaded"
            (some [("audio_path", JVal.s (audio_path?.getD ""))]) none now
          .ok (db, [Call.download episode.audio_url], audio_path?)
  else .ok (db, [], audio_path)

/-- Stage 2 of the process command (lines 1038 to 1074): skip when the
episode row already carries a context, otherwise generate one, store it
and append a contextualized event. -/
def rp_contextualize (env : PipelineEnv) (db : DB) (episode : EpisodeRow)
    (stage_list : List String) (now : Nat) : Except RPErr (DB × List Call) :=
  if stage_list.contains "contextualize" then
    if optStrTruthy episode.context then .ok (db, [])
    else
      let ed : EpisodeData :=
        { guid := episode.episode_guid, title := episode.title,
          audio_url := episode.audio_url, age_days := episode.published_age_days }
      match env.C.contextualize_episode ed with
      | .error m => .error (db, [Call.contextualize episode.episode_guid], m)
      | .ok ctx? =>
        if optStrTruthy ctx? = false then
          .error (db, [Call.contextualize episode.episode_guid], "Failed to generate context")
        else
          let db := update_episode_context db episode.id (ctx?.getD "")
          let db := add_processing_event db episode.id "contextualized" none none now
          .ok (db, [Call.contextualize episode.episode_guid])
  else .ok (db, [])

/-- Stage 3 of the process command (lines 1076 to 1103): require an audio
path, skip when the recorded transcript exists on disk, move the audio out
of the downloaded folder when needed (appending a fresh downloaded event
with the new path), then transcribe and append a transcribed event.
Returns the possibly moved audio path and the transcript path. -/
def rp_transcribe (env : PipelineEnv) (db : DB) (episode : EpisodeRow)
    (stage_list : List String) (audio_path : Option String)
    (transcript_path : Option String) (now : Nat) :
    Except RPErr (DB × List Call × Option String × Option String) :=
  if stage_list.contains "transcribe" then
    if optStrTruthy audio_path = false then
      .error (db, [], "No audio file available. Run with download stage first.")
    else
      if optStrTruthy transcript_path && env.file_exists (transcript_path.getD "") then
        .ok (db, [], audio_path, transcript_path)
      else
        let ap := audio_path.getD ""
        let moved :=
          if env.in_downloaded_dir ap then
            let ap2 := env.C.move_to_processing ap
            (add_processing_event db episode.id "downloaded"
               (some [("audio_path", JVal.s ap2)]) none now,
             [Call.moveToProcessing ap], ap2)
          else (db, [], ap)
        let db := moved.1
        let calls := moved.2.1
        let ap2 := moved.2.2
        match env.C.transcribe_audio ap2 with
        | .error m => .error (db, calls ++ [Call.transcribe ap2], m)
        | .ok transcript? =>
          if optStrTruthy transcript? = false then
            .error (db, calls ++ [Call.transcribe ap2], "Failed to transcribe audio")
          else
            let tp := transcript?.getD ""
            let db := add_processing_event db episode.id "transcribed"
              (some [("transcript_path", JVal.s tp)]) none now
            .ok (db, calls ++ [Call.transcribe ap2], some ap2, some tp)
  else .ok (db, [], audio_path, transcript_path)

/-- Stage 4 of the process command (lines 1105 to 1142): require a
transcript, skip when a summary already exists, otherwise summarize with
the stored context, store the summary and append a summarized event.
Returns the summary text now in effect. -/
def rp_summarize (env : PipelineEnv) (db : DB) (episode : EpisodeRow)
    (stage_list : List String) (transcript_path : Option String)
    (summary_text : Option String) (now : Nat) :
    Except RPErr (DB × List Call × Option String) :=
  if stage_list.contains "summarize" then
    if optStrTruthy transcript_path = false then
      .error (db, [], "No transcript available. Run with transcribe stage first.")
    else if optStrTruthy summary_text then .ok (db, [], summary_text)
    else
      let tp := transcript_path.getD ""
      match env.C.summarize_transcript tp episode.context with
      | .error m => .error (db, [Call.summarize tp], m)
      | .ok summary_path? =>
        if optStrTruthy summary_path? = false then
          .error (db, [Call.summarize tp], "Failed to generate summary")
        else
          let sp := summary_path?.getD ""
          let st := env.C.read_summary sp
          let db := update_episode_summary db episode.id st
          let db := add_processing_event db episode.id "summarized"
            (some [("summary_path", JVal.s sp)]) none now
          .ok (db, [Call.summarize tp], some st)
  else .ok (db, [], summary_text)

/-- Stage 5 of the process command (lines 1144 to 1193): require a summary,
skip silently when no recipients are configured, run the per-recipient
delivery loop, and append an emailed event only when every recipient of
this run succeeded.  A partial failure here does not raise: the command
simply omits the emailed event and continues. -/
def rp_email (env : PipelineEnv) (db : DB) (episode : EpisodeRow)
    (stage_list : List String) (recipients : List String)
    (summary_text : Option String) (now : Nat) : Except RPErr (DB × List Call) :=
  if stage_list.contains "email" then
    if optStrTruthy summary_text = false then
      .error (db, [], "No summary available. Run with summarize stage first.")
    else if recipients.isEmpty then .ok (db, [])
    else
      let out := send_emails_loop env.C episode.id (summary_text.getD "") db recipients true none
      if out.all_sent then
        let db := add_processing_event out.db episode.id "emailed"
          (some [("recipients", JVal.arr recipients)]) out.html now
        .ok (db, out.calls)
      else .ok (out.db, out.calls)
  else .ok (db, [])

/-- Per-episode body of the run_pipeline.py process command (lines 994 to
1227): read the resume data out of the event store, run the requested
stages in order, append a completed event (and archive the audio) when the
full stage set ran, and convert any raised stage error into a failed event
through the shared handler. -/
def rp_run (env : PipelineEnv) (db : DB) (episode_id : Nat)
    (stage_list : List String) (recipients : List String) (now : Nat) :
    DB × List Call :=
  match get_episode_by_id db episode_id with
  | none => (db, [])
  | some episode =>
    let audio_path0 := (get_event_data db episode_id "downloaded").bind
      (fun p => payloadLookupStr p "audio_path")
    let transcript_path0 := (get_event_data db episode_id "transcribed").bind
      (fun p => payloadLookupStr p "transcript_path")
    let summary0 := episode.generated_summary
    let result : Except RPErr (DB × List Call) :=
      match rp_download env db episode stage_list audio_path0 now with
      | .error e => .error e
      | .ok (db1, c1, ap1) =>
        match rp_contextualize env db1 episode stage_list now with
        | .error (dbe, ce, m) => .error (dbe, c1 ++ ce, m)
        | .ok (db2, c2) =>
          match rp_transcribe env db2 episode stage_list ap1 transcript_path0 now with
          | .error (dbe, ce, m) => .error (dbe, c1 ++ c2 ++ ce, m)
          | .ok (db3, c3, ap2, tp1) =>
            match rp_summarize env db3 episode stage_list tp1 summary0 now with
            | .error (dbe, ce, m) => .error (dbe, c1 ++ c2 ++ c3 ++ ce, m)
            | .ok (db4, c4, sum1) =>
              match rp_email env db4 episode stage_list recipients sum1 now with
              | .error (dbe, ce, m) => .error (dbe, c1 ++ c2 ++ c3 ++ c4 ++ ce, m)
              | .ok (db5, c5) =>
                let calls := c1 ++ c2 ++ c3 ++ c4 ++ c5
                if stage_set_complete stage_list then
                  let db6 := add_processing_event db5 episode.id "completed" none none now
                  if optStrTruthy ap2 then
                    .ok (db6, calls ++ [Call.moveToArchive (ap2.getD "")])
                  else .ok (db6, calls)
                else .ok (db5, calls)
    match result with
    | .ok out => out
    | .error (dbe, calls, m) => (mark_failed dbe episode_id m now, calls)

/-- Events of the store are well formed when insertion order agrees with
both row ids and creation timestamps (ids strictly increase, timestamps
never decrease: what AUTOINCREMENT and CURRENT_TIMESTAMP produce), and
every stored id is below the AUTOINCREMENT counter. -/
def evIdLe (a b : EventRow) : Prop :=
  a.id < b.id ∧ a.created_at ≤ b.created_at

instance evIdLe.decRel : DecidableRel evIdLe :=
  fun a b => decidable_of_iff (a.id < b.id ∧ a.created_at ≤ b.created_at) Iff.rfl

/-- Well-formedness of the store reachable through the database API. -/
def DBwf (db : DB) : Prop :=
  db.events.Pairwise evIdLe ∧ ∀ e ∈ db.events, e.id < db.nextEventId

instance DBwf.dec (db : DB) : Decidable (DBwf db) := by
  unfold DBwf; infer_instance

/-- One deferred add_processing_event request, used to state properties
about arbitrary later writes to the store. -/
structure AppendReq where
  episode_id : Nat
  status : String
  event_data : Option Payload
  additional_details : Option String
  time : Nat
deriving DecidableEq, Repr

/-- Apply a list of add_processing_event requests in order. -/
def appendAll (db : DB) : List AppendReq → DB
  | [] => db
  | r :: rest =>
      appendAll
        (add_processing_event db r.episode_id r.status r.event_data
          r.additional_details r.time) rest

/-- Collaborators for which every external call succeeds. -/
def okCollab : Collaborators :=
  { sanitize_filename := fun t _ => t ++ ".mp3",
    download_audio := fun url _ => .ok (some ("dl/" ++ url), some 5),
    contextualize_episode := fun _ => .ok (some "ctx"),
    move_to_processing := fun p => "proc/" ++ p,
    transcribe_audio := fun _ => .ok (some "t.txt"),
    summarize_transcript := fun _ _ => .ok (some "s.md"),
    read_summary := fun _ => "summary text",
    send_summary_email := fun _ _ => (true, "html body") }

/-- Collaborators whose transform stage raises the given exception for the
audio of episode one (audio url u1) and succeeds for every other item. -/
def failTranscribeCollab (m : String) : Collaborators :=
  { okCollab with
    transcribe_audio := fun p =>
      if p == "proc/dl/u1" then .error m else .ok (some "t.txt") }

/-- Collaborators whose acquire stage returns the null result. -/
def failDownloadCollab : Collaborators :=
  { okCollab with download_audio := fun _ _ => .ok (none, none) }

/-- Collaborators whose distributor succeeds for destination a-at-x and
fails for every other destination. -/
def mixedEmailCollab : Collaborators :=
  { okCollab with
    send_summary_email := fun r _ => (r == "a@x", "html body") }

/-- Work item one of the scenarios. -/
def ed1 : EpisodeData :=
  { guid := "g1", title := "E1", audio_url := "u1", age_days := some 1 }

/-- Work item two of the scenarios. -/
def ed2 : EpisodeData :=
  { guid := "g2", title := "E2", audio_url := "u2", age_days := some 1 }

/-- Configuration with a single destination. -/
def cfgA : RunCfg := { emails := ["a@x"], max_episode_age_days := 3 }

/-- Configuration with two destinations. -/
def cfgAB : RunCfg := { emails := ["a@x", "b@x"], max_episode_age_days := 3 }

/-- Store holding episode one with the event history
[downloaded, contextualized, failed], appended in that order. -/
def scenarioFailedDB : DB :=
  let db := (insert_episode emptyDB 1 ed1).1
  let db := add_processing_event db 1 "downloaded"
    (some [("audio_path", JVal.s "dl/u1")]) none 5
  let db := add_processing_event db 1 "contextualized" none none 6
  add_processing_event db 1 "failed"
    (some [("error_message", JVal.s "boom"), ("failed_stage", JVal.s "transcribe")]) none 7

/-- The episode row of scenarioFailedDB. -/
def scenarioRow1 : EpisodeRow :=
  { id := 1, podcast_id := 1, episode_guid := "g1", title := "E1",
    audio_url := "u1", published_age_days := some 1, file_size_mb := none,
    context := none, generated_summary := none }

/-- The podcast list of the failure-isolation scenario: one active podcast
whose feed yields the two work items. -/
def scenarioPodcasts : List PodcastEntry :=
  [{ id := 1, feed := .ok [ed1, ed2], cfg := cfgA }]

/-- Store holding episode one with a delivery record for destination a-at-x
and no processing events: the starting point of the distribution-dedup
scenario. -/
def scenarioDedupDB : DB :=
  log_email_sent (insert_episode emptyDB 1 ed1).1 1 "a@x"

/-- Store holding episode one with the single event history [downloaded]:
a non-terminal current status. -/
def scenarioDownloadedDB : DB :=
  add_processing_event (insert_episode emptyDB 1 ed1).1 1 "downloaded"
    (some [("audio_path", JVal.s "dl/u1")]) none 5

/-- Store holding episode one with history [downloaded, failed]: the state
the manual pipeline runner is allowed to resume. -/
def scenarioResumeDB : DB :=
  add_processing_event scenarioDownloadedDB 1 "failed"
    (some [("error_message", JVal.s "x"), ("failed_stage", JVal.s "contextualize")]) none 6

/-- Filesystem oracle of the resume scenario: the downloaded audio file is
still on disk and no longer inside the downloaded folder. -/
def scenarioEnv : PipelineEnv :=
  { C := okCollab,
    file_exists := fun p => p == "dl/u1",
    in_downloaded_dir := fun _ => false }

theorem keyLt_irrefl (e : EventRow) : keyLt e e = false := by
  simp [keyLt]

theorem keyLt_asymm {a b : EventRow} (h : keyLt a b = true) : keyLt b a = false := by
  simp only [keyLt, decide_eq_true_eq, decide_eq_false_iff_not] at *
  omega

theorem evIdLe_keyLt {a b : EventRow} (h : evIdLe a b) : keyLt a b = true := by
  obtain ⟨h1, h2⟩ := h
  simp only [keyLt, decide_eq_true_eq]
  omega

theorem mem_insertDesc {x e : EventRow} : ∀ {l : List EventRow},
    x ∈ insertDesc e l ↔ x = e ∨ x ∈ l := by
  intro l
  induction l with
  | nil => simp [insertDesc]
  | cons a t ih =>
    simp only [insertDesc]
    by_cases h : keyLt a e = true
    · simp [h, List.mem_cons]
    · simp only [h, if_neg, Bool.not_eq_true] at *
      simp [List.mem_cons, ih]
      tauto

theorem mem_sortDesc {x : EventRow} : ∀ {l : List EventRow}, x ∈ sortDesc l ↔ x ∈ l := by
  intro l
  induction l with
  | nil => simp [sortDesc]
  | cons a t ih =>
    simp only [sortDesc, List.foldr_cons] at *
    rw [mem_insertDesc]
    simp [List.mem_cons, ih]

theorem head?_insertDesc_max {e : EventRow} {s : List EventRow}
    (h : ∀ x ∈ s, x = e ∨ keyLt x e = true) : (insertDesc e s).head? = some e := by
  cases s with
  | nil => rfl
  | cons x xs =>
    by_cases hk : keyLt x e = true
    · simp [insertDesc, hk]
    · rcases h x (List.mem_cons_self x xs) with hx | hx
      · simp [insertDesc, hk, hx, keyLt_irrefl]
      · exact absurd hx hk

theorem head?_sortDesc_max {e : EventRow} : ∀ {l : List EventRow}, e ∈ l →
    (∀ x ∈ l, x = e ∨ keyLt x e = true) → (sortDesc l).head? = some e := by
  intro l
  induction l with
  | nil => intro h; cases h
  | cons a t ih =>
    intro hmem hmax
    simp only [sortDesc, List.foldr_cons]
    by_cases ha : a = e
    · subst ha
      apply head?_insertDesc_max
      intro x hx
      exact hmax x (List.mem_cons_of_mem a (mem_sortDesc.mp hx))
    · have het : e ∈ t := by
        rcases List.mem_cons.mp hmem with h1 | h1
        · exact absurd h1.symm ha
        · exact h1
      have hht : (sortDesc t).head? = some e :=
        ih het (fun x hx => hmax x (List.mem_cons_of_mem a hx))
      have hae : keyLt a e = true := by
        rcases hmax a (List.mem_cons_self a t) with h1 | h1
        · exact absurd h1 ha
        · exact h1
      cases hst : sortDesc t with
      | nil => rw [hst] at hht; cases hht
      | cons y ys =>
        rw [hst] at hht
        have hy : y = e := by
          simp only [List.head?] at hht
          injection hht
        subst hy
        have : keyLt y a = false := keyLt_asymm hae
        simp only [sortDesc] at hst
        simp [insertDesc, this, hst]

theorem mem_of_getLast?_eq : ∀ {l : List EventRow} {e : EventRow},
    l.getLast? = some e → e ∈ l := by
  intro l
  induction l with
  | nil => intro e h; cases h
  | cons a t ih =>
    intro e h
    cases t with
    | nil =>
      simp only [List.getLast?_singleton] at h
      injection h with h2
      simp [h2]
    | cons b t2 =>
      rw [List.getLast?_cons_cons] at h
      exact List.mem_cons_of_mem a (ih h)

theorem pairwise_getLast_keyLt : ∀ {l : List EventRow} {e : EventRow},
    l.Pairwise evIdLe → l.getLast? = some e → ∀ x ∈ l, x = e ∨ keyLt x e = true := by
  intro l
  induction l with
  | nil => intro e _ h; cases h
  | cons a t ih =>
    intro e hp hl x hx
    cases t with
    | nil =>
      simp only [List.getLast?_singleton] at hl
      injection hl with h2
      rcases List.mem_singleton.mp hx with rfl
      left; exact h2
    | cons b t2 =>
      rw [List.getLast?_cons_cons] at hl
      have hp2 := List.pairwise_cons.mp hp
      rcases List.mem_cons.mp hx with rfl | hx2
      · right
        have hmem : e ∈ b :: t2 := mem_of_getLast?_eq hl
        exact evIdLe_keyLt (hp2.1 e hmem)
      · exact ih hp2.2 hl x hx2

/-- C1: for every episode of a well-formed store, get_current_status equals
the status of the most recently appended event of that episode (the latest
created event, ties broken by insertion order through the higher row id),
and is none when the episode has no events.  The [downloaded,
contextualized, failed] instance is checked in the witness. -/
theorem C1_current_status_is_latest_event (db : DB) (episode_id : Nat)
    (hwf : DBwf db) :
    get_current_status db episode_id =
      ((eventsFor db episode_id).getLast?).map (fun e => e.status) := by
  have hpw : (eventsFor db episode_id).Pairwise evIdLe :=
    List.Pairwise.sublist (List.filter_sublist db.events) hwf.1
  unfold get_current_status get_latest_processing_event
  cases hl : (eventsFor db episode_id).getLast? with
  | none =>
    have h2 : eventsFor db episode_id = [] := List.getLast?_eq_none_iff.mp hl
    rw [h2]
    rfl
  | some e =>
    have hmem := mem_of_getLast?_eq hl
    have hmax := pairwise_getLast_keyLt hpw hl
    rw [head?_sortDesc_max hmem hmax]

theorem C1_witness :
    DBwf scenarioFailedDB ∧ get_current_status scenarioFailedDB 1 = some "failed" := by
  refine ⟨by decide, ?_⟩
  have h := C1_current_status_is_latest_event scenarioFailedDB 1 (by decide)
  rw [h]
  decide

/-- C2: for an episode whose current status is failed, running the
orchestrator step process_episode again returns the store unchanged and an
empty collaborator call log: a failed item is never automatically
retried. -/
theorem C2_failed_never_retried (C : Collaborators) (db : DB) (podcast_id : Nat)
    (cfg : RunCfg) (ed : EpisodeData) (now : Nat) (ep : EpisodeRow)
    (hguid : get_episode_by_guid db ed.guid = some ep)
    (hfailed : get_current_status db ep.id = some "failed") :
    process_episode C db podcast_id cfg ed now = (db, []) := by
  simp only [process_episode, hguid, hfailed]

theorem C2_witness :
    get_current_status scenarioFailedDB 1 = some "failed" ∧
    process_episode okCollab scenarioFailedDB 1 cfgA ed1 11 = (scenarioFailedDB, []) :=
  ⟨by decide,
   C2_failed_never_retried okCollab scenarioFailedDB 1 cfgA ed1 11 scenarioRow1
     (by decide) (by decide)⟩

theorem head?_sortDesc_filter_append (l : List EventRow) (nr : EventRow)
    (f : EventRow → Bool) (hf : f nr = true)
    (hlt : ∀ x ∈ l, keyLt x nr = true) :
    (sortDesc ((l ++ [nr]).filter f)).head? = some nr := by
  apply head?_sortDesc_max
  · rw [List.filter_append]
    apply List.mem_append_right
    simp [List.filter_cons, hf]
  · intro x hx
    rw [List.filter_append] at hx
    rcases List.mem_append.mp hx with hx | hx
    · exact Or.inr (hlt x (List.mem_of_mem_filter hx))
    · left
      simp [List.filter_cons, hf] at hx
      exact hx

theorem keyLt_of_bounds {x nr : EventRow} (h1 : x.id < nr.id)
    (h2 : x.created_at ≤ nr.created_at) : keyLt x nr = true := by
  simp only [keyLt, decide_eq_true_eq]
  omega

theorem get_event_data_eq_head (db : DB) (eid : Nat) (st : String) :
    get_event_data db eid st =
      (get_processing_events db eid (some st)).head?.bind (fun e => e.event_data) := by
  unfold get_event_data
  cases get_processing_events db eid (some st) <;> rfl

theorem get_event_data_add_self (db : DB) (eid : Nat) (st : String)
    (p : Option Payload) (d : Option String) (t : Nat)
    (hid : ∀ e ∈ db.events, e.id < db.nextEventId)
    (ht : ∀ e ∈ db.events, e.created_at ≤ t) :
    get_event_data (add_processing_event db eid st p d t) eid st =
      storedEventData p := by
  have hlt : ∀ x ∈ db.events, keyLt x
      ({ id := db.nextEventId, episode_id := eid, status := st,
         event_data := storedEventData p, additional_details := d,
         created_at := t } : EventRow) = true :=
    fun x hx => keyLt_of_bounds (hid x hx) (ht x hx)
  rw [get_event_data_eq_head]
  unfold get_processing_events eventsFor add_processing_event
  by_cases hst : st.isEmpty
  · simp only [hst, if_pos]
    rw [head?_sortDesc_filter_append db.events _ _ (by simp) hlt]
    rfl
  · simp only [hst, if_neg, Bool.false_eq_true, not_false_eq_true]
    rw [List.filter_filter]
    rw [head?_sortDesc_filter_append db.events _ _ (by simp) hlt]
    rfl

theorem get_latest_add_self (db : DB) (eid : Nat) (st : String)
    (p : Option Payload) (d : Option String) (t : Nat)
    (hid : ∀ e ∈ db.events, e.id < db.nextEventId)
    (ht : ∀ e ∈ db.events, e.created_at ≤ t) :
    get_latest_processing_event (add_processing_event db eid st p d t) eid =
      some { id := db.nextEventId, episode_id := eid, status := st,
             event_data := storedEventData p, additional_details := d,
             created_at := t } := by
  have hlt : ∀ x ∈ db.events, keyLt x
      ({ id := db.nextEventId, episode_id := eid, status := st,
         event_data := storedEventData p, additional_details := d,
         created_at := t } : EventRow) = true :=
    fun x hx => keyLt_of_bounds (hid x hx) (ht x hx)
  unfold get_latest_processing_event eventsFor add_processing_event
  rw [head?_sortDesc_filter_append db.events _ _ (by simp) hlt]

theorem get_event_data_add_other (db : DB) (eid eid2 : Nat) (st st2 : String)
    (p : Option Payload) (d : Option String) (t : Nat)
    (hst2 : st2.isEmpty = false)
    (hne : ¬(eid = eid2 ∧ st = st2)) :
    get_event_data (add_processing_event db eid st p d t) eid2 st2 =
      get_event_data db eid2 st2 := by
  unfold get_event_data get_processing_events eventsFor add_processing_event
  simp only [hst2, Bool.false_eq_true, if_neg, not_false_eq_true, if_false]
  have hdrop : ∀ nr : EventRow, nr.episode_id = eid → nr.status = st →
      ((db.events ++ [nr]).filter (fun e => e.episode_id == eid2)).filter
          (fun e => e.status == st2) =
        (db.events.filter (fun e => e.episode_id == eid2)).filter
          (fun e => e.status == st2) := by
    intro nr h1 h2
    rw [List.filter_append, List.filter_append]
    by_cases hq : eid = eid2
    · have hq2 : ¬st = st2 := fun h => hne ⟨hq, h⟩
      simp [List.filter_cons, h1, h2, hq, hq2]
    · simp [List.filter_cons, h1, hq]
  rw [hdrop _ rfl rfl]

theorem get_event_data_appendAll (eid : Nat) (st : String) (hst : st.isEmpty = false) :
    ∀ (L : List AppendReq), (∀ r ∈ L, ¬(r.episode_id = eid ∧ r.status = st)) →
      ∀ db : DB, get_event_data (appendAll db L) eid st = get_event_data db eid st := by
  intro L
  induction L with
  | nil => intro _ db; rfl
  | cons r rest ih =>
    intro hL db
    simp only [appendAll]
    rw [ih (fun r2 h2 => hL r2 (List.mem_cons_of_mem r h2)) _,
        get_event_data_add_other db r.episode_id eid r.status st r.event_data
          r.additional_details r.time hst (hL r (List.mem_cons_self r rest))]

/-- C9: payload round trip.  After appending a downloaded event with a
non-empty payload, get_event_data for status downloaded returns exactly
that payload, whatever events are appended afterwards, as long as none of
them is another downloaded event for the same episode. -/
theorem C9_payload_round_trip (db : DB) (eid : Nat) (p : Payload) (d : Option String)
    (t : Nat) (L : List AppendReq)
    (hid : ∀ e ∈ db.events, e.id < db.nextEventId)
    (ht : ∀ e ∈ db.events, e.created_at ≤ t)
    (hp : p ≠ [])
    (hL : ∀ r ∈ L, ¬(r.episode_id = eid ∧ r.status = "downloaded")) :
    get_event_data
      (appendAll (add_processing_event db eid "downloaded" (some p) d t) L)
      eid "downloaded" = some p := by
  rw [get_event_data_appendAll eid "downloaded" (by rfl) L hL _,
      get_event_data_add_self db eid "downloaded" (some p) d t hid ht]
  simp [storedEventData, hp]

theorem C9_witness :
    get_event_data
      (appendAll (add_processing_event (insert_episode emptyDB 1 ed1).1 1 "downloaded"
        (some [("audio_path", JVal.s "/a/b.mp3")]) none 5)
        [⟨1, "contextualized", none, none, 6⟩,
         ⟨1, "failed",
          some [("error_message", JVal.s "x"), ("failed_stage", JVal.s "transcribe")],
          none, 7⟩])
      1 "downloaded" = some [("audio_path", JVal.s "/a/b.mp3")] :=
  C9_payload_round_trip (insert_episode emptyDB 1 ed1).1 1
    [("audio_path", JVal.s "/a/b.mp3")] none 5 _
    (by decide) (by decide) (by decide) (by decide)

/-- C10: appending an event whose payload is the empty dict (or None)
stores no payload at all, so reading it back through get_event_data or
get_latest_processing_event yields none for event_data rather than the
empty dict, while a non-empty payload survives the round trip. -/
theorem C10_falsy_payload_not_stored (db : DB) (eid : Nat) (st : String)
    (d : Option String) (t : Nat)
    (hid : ∀ e ∈ db.events, e.id < db.nextEventId)
    (ht : ∀ e ∈ db.events, e.created_at ≤ t) :
    get_event_data (add_processing_event db eid st (some []) d t) eid st = none ∧
    get_latest_processing_event (add_processing_event db eid st (some []) d t) eid =
      some { id := db.nextEventId, episode_id := eid, status := st,
             event_data := none, additional_details := d, created_at := t } ∧
    get_event_data (add_processing_event db eid st none d t) eid st = none ∧
    (∀ p : Payload, p ≠ [] →
      get_event_data (add_processing_event db eid st (some p) d t) eid st = some p) := by
  refine ⟨?_, ?_, ?_, ?_⟩
  · rw [get_event_data_add_self db eid st (some []) d t hid ht]; rfl
  · exact get_latest_add_self db eid st (some []) d t hid ht
  · rw [get_event_data_add_self db eid st none d t hid ht]; rfl
  · intro p hp
    rw [get_event_data_add_self db eid st (some p) d t hid ht]
    simp [storedEventData, hp]

theorem C10_witness :
    get_event_data
      (add_processing_event (insert_episode emptyDB 1 ed1).1 1 "downloaded"
        (some []) none 5) 1 "downloaded" = none :=
  (C10_falsy_payload_not_stored (insert_episode emptyDB 1 ed1).1 1 "downloaded"
    none 5 (by decide) (by decide)).1

/-- C3: failure isolation.  With two fresh work items under an active
collection, where item one raises (message m) in the transform stage and
item two fully succeeds, one orchestrator run leaves item one failed (with
the raised message and stage recorded in a failed event) and item two
completed.  The run itself returns a value for every m, which is the
embedded form of no exception escaping: every stage error is consumed by
the handler inside process_episode. -/
theorem C3_failure_isolation (m : String) :
    ∃ out, process_podcast (failTranscribeCollab m) emptyDB
        { id := 1, feed := .ok [ed1, ed2], cfg := cfgA } 10 = .ok out ∧
      get_current_status out.1 1 = some "failed" ∧
      get_event_data out.1 1 "failed" =
        some [("error_message", JVal.s m), ("failed_stage", JVal.s "transcribe")] ∧
      get_current_status out.1 2 = some "completed" := by
  refine ⟨_, rfl, ?_, ?_, ?_⟩ <;> rfl

/-- C7: failed-stage inference is exactly the fixed table applied to the
status preceding the failed event: none maps to download, downloaded to
contextualize, contextualized to transcribe, transcribed to summarize,
summarized to email, and any other status to unknown; in the run whose
events are [downloaded, contextualized, failed] the recorded failed_stage
is transcribe (the transform stage). -/
theorem C7_failed_stage_inference :
    failed_stage_map none = "download" ∧
    failed_stage_map (some "downloaded") = "contextualize" ∧
    failed_stage_map (some "contextualized") = "transcribe" ∧
    failed_stage_map (some "transcribed") = "summarize" ∧
    failed_stage_map (some "summarized") = "email" ∧
    (∀ s : String,
      s ∉ (["downloaded", "contextualized", "transcribed", "summarized"] : List String) →
      failed_stage_map (some s) = "unknown") ∧
    (∀ m : String,
      get_event_data
        (process_episode (failTranscribeCollab m) emptyDB 1 cfgA ed1 10).1 1 "failed" =
        some [("error_message", JVal.s m), ("failed_stage", JVal.s "transcribe")]) := by
  refine ⟨rfl, rfl, rfl, rfl, rfl, ?_, fun m => rfl⟩
  intro s hs
  simp only [List.mem_cons, List.not_mem_nil, or_false, not_or] at hs
  obtain ⟨h1, h2, h3, h4⟩ := hs
  have e1 : (s == "downloaded") = false := beq_eq_false_iff_ne.mpr h1
  have e2 : (s == "contextualized") = false := beq_eq_false_iff_ne.mpr h2
  have e3 : (s == "transcribed") = false := beq_eq_false_iff_ne.mpr h3
  have e4 : (s == "summarized") = false := beq_eq_false_iff_ne.mpr h4
  simp [failed_stage_map, failed_stage_table, List.lookup, e1, e2, e3, e4]

theorem C7_witness :
    ("bogus" : String) ∉
      (["downloaded", "contextualized", "transcribed", "summarized"] : List String) ∧
    failed_stage_map (some "bogus") = "unknown" :=
  ⟨by decide, C7_failed_stage_inference.2.2.2.2.2.1 "bogus" (by decide)⟩

theorem email_already_sent_log_mono {db : DB} {eid : Nat} {r : String}
    {e2 : Nat} {r2 : String}
    (h : email_already_sent db eid r = true) :
    email_already_sent (log_email_sent db e2 r2) eid r = true := by
  simp only [email_already_sent, log_email_sent, List.any_append, Bool.or_eq_true] at *
  exact Or.inl h

theorem email_already_sent_log_self (db : DB) (eid : Nat) (r : String) :
    email_already_sent (log_email_sent db eid r) eid r = true := by
  simp [email_already_sent, log_email_sent, List.any_append]

theorem email_already_sent_loop_mono (C : Collaborators) (eid : Nat) (s : String) :
    ∀ (rs : List String) (db : DB) (allOk : Bool) (html : Option String) (r : String),
      email_already_sent db eid r = true →
      email_already_sent (send_emails_loop C eid s db rs allOk html).db eid r = true := by
  intro rs
  induction rs with
  | nil => intro db allOk html r h; exact h
  | cons r0 rest ih =>
    intro db allOk html r h
    simp only [send_emails_loop]
    by_cases hs : email_already_sent db eid r0 = true
    · simp only [hs, if_true]
      exact ih db allOk html r h
    · simp only [hs, if_false, Bool.false_eq_true]
      by_cases hr : (C.send_summary_email r0 s).1 = true
      · simp only [hr, if_true]
        exact ih _ _ _ r (email_already_sent_log_mono h)
      · simp only [hr, if_false, Bool.false_eq_true]
        exact ih _ _ _ r h

theorem send_emails_loop_acc (C : Collaborators) (eid : Nat) (s : String) :
    ∀ (rs : List String) (db : DB) (allOk : Bool) (html : Option String),
      (send_emails_loop C eid s db rs allOk html).all_sent = true → allOk = true := by
  intro rs
  induction rs with
  | nil => intro db allOk html h; exact h
  | cons r0 rest ih =>
    intro db allOk html h
    simp only [send_emails_loop] at h
    by_cases hs : email_already_sent db eid r0 = true
    · simp only [hs, if_true] at h
      exact ih _ _ _ h
    · simp only [hs, if_false, Bool.false_eq_true] at h
      have h2 := ih _ _ _ h
      simp only [Bool.and_eq_true] at h2
      exact h2.1

/-- C4: distribution dedup.  Sending to destinations [a, b] where a
already has a delivery record invokes the distributor only for b; after b
succeeds both pairs have delivery records and exactly one emailed event
exists.  The final conjunct is the general guarantee: whenever the
delivery loop reports all_sent, every destination of the run is recorded
in the ledger (it was already recorded or its send just succeeded). -/
theorem C4_distribution_dedup :
    ((process_episode okCollab scenarioDedupDB 1 cfgAB ed1 10).2.filter
        (fun c => match c with | Call.sendEmail _ => true | _ => false) =
      [Call.sendEmail "b@x"]) ∧
    (process_episode okCollab scenarioDedupDB 1 cfgAB ed1 10).1.email_log =
      [(1, "a@x"), (1, "b@x")] ∧
    ((process_episode okCollab scenarioDedupDB 1 cfgAB ed1 10).1.events.filter
        (fun e => e.status == "emailed")).length = 1 ∧
    (∀ (C : Collaborators) (db : DB) (eid : Nat) (s : String) (rs : List String)
        (allOk : Bool) (html : Option String),
      (send_emails_loop C eid s db rs allOk html).all_sent = true →
      ∀ r ∈ rs,
        email_already_sent (send_emails_loop C eid s db rs allOk html).db eid r = true) := by
  refine ⟨by decide, by decide, by decide, ?_⟩
  intro C db eid s rs
  induction rs generalizing db with
  | nil => intro allOk html _ r hr; cases hr
  | cons r0 rest ih =>
    intro allOk html hall r hr
    simp only [send_emails_loop] at hall ⊢
    by_cases hs : email_already_sent db eid r0 = true
    · simp only [hs, if_true] at hall ⊢
      rcases List.mem_cons.mp hr with rfl | hr2
      · exact email_already_sent_loop_mono C eid s rest db allOk html r hs
      · exact ih db allOk html hall r hr2
    · simp only [hs, if_false, Bool.false_eq_true] at hall ⊢
      have hacc := send_emails_loop_acc C eid s rest _ _ _ hall
      simp only [Bool.and_eq_true] at hacc
      have hres : (C.send_summary_email r0 s).1 = true := hacc.2
      simp only [hres, if_true] at hall ⊢
      rcases List.mem_cons.mp hr with rfl | hr2
      · exact email_already_sent_loop_mono C eid s rest _ _ _ r
          (email_already_sent_log_self db eid r)
      · exact ih _ _ _ hall r hr2

theorem C4_witness :
    (send_emails_loop okCollab 1 "s" scenarioDedupDB ["a@x", "b@x"] true none).all_sent
        = true ∧
    email_already_sent
      (send_emails_loop okCollab 1 "s" scenarioDedupDB ["a@x", "b@x"] true none).db
      1 "b@x" = true :=
  ⟨by decide,
   C4_distribution_dedup.2.2.2 okCollab scenarioDedupDB 1 "s" ["a@x", "b@x"] true none
     (by decide) "b@x" (by decide)⟩

/-- C5 counterexample: destinations [a, b] with a succeeding (its
delivery record is written) and b failing.  The orchestrator appends a
failed event for the episode in the same run, refuting the claim that a
partial distribution failure is not immediately escalated. -/
theorem C5_counterexample :
    (process_episode mixedEmailCollab emptyDB 1 cfgAB ed1 10).1.email_log =
      [(1, "a@x")] ∧
    Call.sendEmail "b@x" ∈ (process_episode mixedEmailCollab emptyDB 1 cfgAB ed1 10).2 ∧
    ((process_episode mixedEmailCollab emptyDB 1 cfgAB ed1 10).1.events.filter
      (fun e => e.status == "failed")).length = 1 := by
  refine ⟨by decide, by decide, by decide⟩

/-- C5 amended: a partial distribution failure is escalated immediately:
the run appends exactly one failed event (stage email, message about
failed sends) and no emailed event; the delivery records of the
destinations that succeeded persist, so a later delivery pass skips them
(the last conjunct shows a rerun of the delivery loop calling the
distributor only for the destination that failed). -/
theorem C5_incomplete_delivery_escalated :
    ((process_episode mixedEmailCollab emptyDB 1 cfgAB ed1 10).1.events.filter
        (fun e => e.status == "failed")).length = 1 ∧
    get_event_data (process_episode mixedEmailCollab emptyDB 1 cfgAB ed1 10).1
        1 "failed" =
      some [("error_message", JVal.s "Failed to send one or more emails"),
            ("failed_stage", JVal.s "email")] ∧
    ((process_episode mixedEmailCollab emptyDB 1 cfgAB ed1 10).1.events.filter
        (fun e => e.status == "emailed")) = [] ∧
    email_already_sent (process_episode mixedEmailCollab emptyDB 1 cfgAB ed1 10).1
        1 "a@x" = true ∧
    email_already_sent (process_episode mixedEmailCollab emptyDB 1 cfgAB ed1 10).1
        1 "b@x" = false ∧
    (send_emails_loop mixedEmailCollab 1 "summary text"
        (process_episode mixedEmailCollab emptyDB 1 cfgAB ed1 10).1
        ["a@x", "b@x"] true none).calls = [Call.sendEmail "b@x"] := by
  refine ⟨by decide, by decide, by decide, by decide, by decide, by decide⟩

theorem main_loop_no_feed_error (C : Collaborators) (now : Nat) :
    ∀ (ps : List PodcastEntry) (st : MainLoopSt),
      (∀ p ∈ ps, ∃ eps, p.feed = Except.ok eps) → st.has_failures = false →
      (ps.foldl (main_loop_step C now) st).has_failures = false := by
  intro ps
  induction ps with
  | nil => intro st _ h; exact h
  | cons p rest ih =>
    intro st hok h
    simp only [List.foldl_cons]
    obtain ⟨eps, hfeed⟩ := hok p (List.mem_cons_self p rest)
    have hstep : (main_loop_step C now st p).has_failures = false := by
      simp only [main_loop_step, process_podcast, hfeed]
      exact h
    exact ih _ (fun q hq => hok q (List.mem_cons_of_mem p hq)) hstep

/-- C6 counterexample: a run in which the only work item ends with a
failed event exits with code 0, refuting the claim that such a run reports
a non-zero exit code. -/
theorem C6_counterexample :
    (main_run failDownloadCollab emptyDB
        [{ id := 1, feed := .ok [ed1], cfg := cfgA }] 10).exit_code = 0 ∧
    get_current_status
      (main_run failDownloadCollab emptyDB
        [{ id := 1, feed := .ok [ed1], cfg := cfgA }] 10).db 1 = some "failed" := by
  refine ⟨by decide, by decide⟩

/-- C6 amended: a run whose podcast feeds all load exits with code 0
even when work items end failed; the degraded outcome is surfaced through
the error-summary email, which is sent whenever failed episodes exist in
the reporting window.  Non-zero exit arises only from a collection-level
error (a raised feed fetch).  The witness shows such a run still attempts
every other item and collection. -/
theorem C6_degraded_run_reporting (C : Collaborators) (db : DB)
    (podcasts : List PodcastEntry) (now : Nat)
    (hok : ∀ p ∈ podcasts, ∃ eps, p.feed = Except.ok eps) :
    (main_run C db podcasts now).exit_code = 0 ∧
    (get_failed_episodes (main_run C db podcasts now).db (some 24) now ≠ [] →
      Call.errorSummary
          (get_failed_episodes (main_run C db podcasts now).db (some 24) now) ∈
        (main_run C db podcasts now).calls) := by
  have hf := main_loop_no_feed_error C now podcasts
    { db := db, calls := [], has_failures := false } hok rfl
  constructor
  · simp only [main_run, hf]
    rfl
  · intro hne
    simp only [main_run] at hne ⊢
    simp only [send_error_summary]
    have hempty : (get_failed_episodes
        (podcasts.foldl (main_loop_step C now)
          { db := db, calls := [], has_failures := false }).db (some 24) now).isEmpty
        = false := by
      rw [List.isEmpty_eq_false]
      exact hne
    rw [hempty]
    simp

theorem C6_witness :
    (main_run (failTranscribeCollab "boom") emptyDB
        [{ id := 1, feed := .ok [ed1], cfg := cfgA },
         { id := 2, feed := .ok [ed2], cfg := cfgA }] 10).exit_code = 0 ∧
    Call.errorSummary
        (get_failed_episodes
          (main_run (failTranscribeCollab "boom") emptyDB
            [{ id := 1, feed := .ok [ed1], cfg := cfgA },
             { id := 2, feed := .ok [ed2], cfg := cfgA }] 10).db (some 24) 10) ∈
      (main_run (failTranscribeCollab "boom") emptyDB
        [{ id := 1, feed := .ok [ed1], cfg := cfgA },
         { id := 2, feed := .ok [ed2], cfg := cfgA }] 10).calls ∧
    get_current_status
      (main_run (failTranscribeCollab "boom") emptyDB
        [{ id := 1, feed := .ok [ed1], cfg := cfgA },
         { id := 2, feed := .ok [ed2], cfg := cfgA }] 10).db 1 = some "failed" ∧
    get_current_status
      (main_run (failTranscribeCollab "boom") emptyDB
        [{ id := 1, feed := .ok [ed1], cfg := cfgA },
         { id := 2, feed := .ok [ed2], cfg := cfgA }] 10).db 2 = some "completed" := by
  have hok : ∀ p ∈ ([{ id := 1, feed := .ok [ed1], cfg := cfgA },
      { id := 2, feed := .ok [ed2], cfg := cfgA }] : List PodcastEntry),
      ∃ eps, p.feed = Except.ok eps := by
    intro p hp
    rcases List.mem_cons.mp hp with rfl | hp2
    · exact ⟨[ed1], rfl⟩
    rcases List.mem_cons.mp hp2 with rfl | hp3
    · exact ⟨[ed2], rfl⟩
    cases hp3
  have h := C6_degraded_run_reporting (failTranscribeCollab "boom") emptyDB
    [{ id := 1, feed := .ok [ed1], cfg := cfgA },
     { id := 2, feed := .ok [ed2], cfg := cfgA }] 10 hok
  exact ⟨h.1, h.2 (by decide), by decide, by decide⟩

/-- C8 counterexample: an episode whose current status is the
non-terminal tag downloaded is skipped entirely by the orchestrator: no
event is appended and no collaborator is invoked, in particular the next
stage (contextualize) is not executed, refuting the claim that the run
proceeds to the next stage of the sequence. -/
theorem C8_counterexample :
    process_episode okCollab scenarioDownloadedDB 1 cfgA ed1 10 =
      (scenarioDownloadedDB, []) ∧
    Call.contextualize "g1" ∉
      (process_episode okCollab scenarioDownloadedDB 1 cfgA ed1 10).2 := by
  refine ⟨by decide, by decide⟩

/-- C8 amended: the orchestrator skips an episode with any existing
status entirely, and the manual pipeline runner drops episodes whose
status is a stage tag before any stage runs; stage-level resume exists
only in the manual runner for episodes with no events or a failed latest
event, where a completed stage is detected through the event-store payload
plus an on-disk check and skipped without re-invoking its collaborator,
execution proceeding to the next stage (here contextualize runs while
download does not, and the episode reaches completed). -/
theorem C8_skip_and_resume :
    (∀ (C : Collaborators) (db : DB) (podcast_id : Nat) (cfg : RunCfg)
        (ed : EpisodeData) (now : Nat) (ep : EpisodeRow) (st : String),
      get_episode_by_guid db ed.guid = some ep →
      get_current_status db ep.id = some st →
      process_episode C db podcast_id cfg ed now = (db, [])) ∧
    (∀ (db : DB) (podcast_id : Nat) (ed : EpisodeData) (ep : EpisodeRow) (st : String),
      get_episode_by_guid db ed.guid = some ep →
      get_current_status db ep.id = some st →
      st ∈ rp_skip_statuses →
      rp_select_episodes db podcast_id [ed] = (db, [])) ∧
    ((rp_run scenarioEnv scenarioResumeDB 1 rp_all_stages ["a@x"] 20).2.filter
        (fun c => match c with | Call.download _ => true | _ => false) = []) ∧
    Call.contextualize "g1" ∈
      (rp_run scenarioEnv scenarioResumeDB 1 rp_all_stages ["a@x"] 20).2 ∧
    get_current_status
      (rp_run scenarioEnv scenarioResumeDB 1 rp_all_stages ["a@x"] 20).1 1 =
      some "completed" := by
  refine ⟨?_, ?_, by decide, by decide, by decide⟩
  · intro C db podcast_id cfg ed now ep st hguid hstat
    simp only [process_episode, hguid, hstat]
  · intro db podcast_id ed ep st hguid hstat hmem
    have hcont : rp_skip_statuses.contains st = true := by
      show rp_skip_statuses.elem st = true
      exact List.elem_iff.mpr hmem
    simp only [rp_select_episodes, hguid, hstat, hcont, Bool.not_true,
      Bool.false_eq_true, if_false]

theorem C8_witness :
    get_current_status scenarioDownloadedDB 1 = some "downloaded" ∧
    process_episode okCollab scenarioDownloadedDB 1 cfgA ed1 10 =
      (scenarioDownloadedDB, []) ∧
    rp_select_episodes scenarioDownloadedDB 1 [ed1] = (scenarioDownloadedDB, []) :=
  ⟨by decide,
   C8_skip_and_resume.1 okCollab scenarioDownloadedDB 1 cfgA ed1 10 scenarioRow1
     "downloaded" (by decide) (by decide),
   C8_skip_and_resume.2.1 scenarioDownloadedDB 1 ed1 scenarioRow1 "downloaded"
     (by decide) (by decide) (by decide)⟩
